import Mathlib

/-!
Verification development for the FortiVoice bridge channel
(extensions/fortivoice): wire protocol codec, session store, account
resolver, and the pure core of the connection monitor request handler.

JavaScript strings are modelled as lists of characters (`Str`); the
character-level operations `trim`, `toLowerCase`, `startsWith`, `slice`
are modelled for the code points that occur in the protocol (ASCII).
JavaScript `Map` objects are modelled as association lists that keep
insertion order, matching the iteration-order semantics the code relies
on. JSON values that reach the handlers are modelled by the inductive
`JsValue`; decoding of the raw UTF-8 byte stream by JSON.parse is not
modelled, the embedding starts from the decoded value.
-/

namespace Fortivoice

abbrev Str := List Char

/-- Whitespace test used by the model of String.prototype.trim, covering
the ASCII whitespace code points. -/
def isJsWs (c : Char) : Bool :=
  c = ' ' || c = '\t' || c = '\n' || c = '\r' || c = '\x0b' || c = '\x0c'

/-- Model of String.prototype.trim: drop whitespace from both ends. -/
def trimL (s : Str) : Str :=
  ((s.dropWhile isJsWs).reverse.dropWhile isJsWs).reverse

/-- Model of String.prototype.toLowerCase on one character (ASCII range). -/
def lowerChar (c : Char) : Char :=
  if 'A' ≤ c && c ≤ 'Z' then Char.ofNat (c.toNat + 32) else c

/-- Model of String.prototype.toLowerCase (ASCII range). -/
def lowerL (s : Str) : Str := s.map lowerChar

/-- Model of String.prototype.startsWith: startsWithL p s is true when s
begins with p. -/
def startsWithL : Str → Str → Bool
  | [], _ => true
  | _ :: _, [] => false
  | p :: ps, c :: cs => (p = c) && startsWithL ps cs

/-- Digit test for the phone pattern. -/
def isDigitChar (c : Char) : Bool := '0' ≤ c && c ≤ '9'

/-- Model of the regular expression test for the E.164-ish phone pattern:
an optional leading plus sign followed by 7 to 15 digits. -/
def e164Test (s : Str) : Bool :=
  let digits := match s with
    | '+' :: rest => some rest
    | other => some other
  match digits with
  | some d => d.all isDigitChar && decide (7 ≤ d.length) && decide (d.length ≤ 15)
  | none => false

/-! Association-list model of JavaScript Map with string keys: set
replaces in place (keeping insertion position) or appends, delete
removes, iteration follows list order. -/

/-- Lookup in an insertion-ordered map. -/
def mapGet {β : Type} : List (Str × β) → Str → Option β
  | [], _ => none
  | (k', v) :: rest, k => if k' = k then some v else mapGet rest k

/-- Membership test, Map.prototype.has. -/
def mapHas {β : Type} (m : List (Str × β)) (k : Str) : Bool :=
  (mapGet m k).isSome

/-- Map.prototype.set: replace in place or append at the end. -/
def mapSet {β : Type} : List (Str × β) → Str → β → List (Str × β)
  | [], k, v => [(k, v)]
  | (k', v') :: rest, k, v =>
      if k' = k then (k, v) :: rest else (k', v') :: mapSet rest k v

/-- Map.prototype.delete. -/
def mapDelete {β : Type} : List (Str × β) → Str → List (Str × β)
  | [], _ => []
  | (k', v') :: rest, k =>
      if k' = k then mapDelete rest k else (k', v') :: mapDelete rest k

/-- Keys in insertion order, Array.from(m.keys()). -/
def mapKeys {β : Type} (m : List (Str × β)) : List Str := m.map Prod.fst

/-- Decoded JSON / JavaScript values reaching the protocol layer.
Numbers are modelled as integers: no claim depends on non-integral or
non-finite numerics. -/
inductive JsValue where
  | null
  | bool (b : Bool)
  | num (n : Int)
  | str (s : Str)
  | arr (elems : List JsValue)
  | obj (fields : List (Str × JsValue))

/-- Record of arbitrary keys and values, the payload type. -/
abbrev JsRecord := List (Str × JsValue)

/-- Model of readString from protocol.ts: the value at the key when it is
a string. -/
def readString (record : JsRecord) (key : Str) : Option Str :=
  match mapGet record key with
  | some (JsValue.str s) => some s
  | _ => none

/-- Model of readRecord from protocol.ts: the value at the key when it is
a non-array non-null object. -/
def readRecord (record : JsRecord) (key : Str) : Option JsRecord :=
  match mapGet record key with
  | some (JsValue.obj fields) => some fields
  | _ => none

/-- Model of readNumber from protocol.ts: the value at the key when it is
a (finite) number; all modelled numbers are finite. -/
def readNumber (record : JsRecord) (key : Str) : Option Int :=
  match mapGet record key with
  | some (JsValue.num n) => some n
  | _ => none

/-- Model of readBoolean from protocol.ts. -/
def readBoolean (record : JsRecord) (key : Str) : Option Bool :=
  match mapGet record key with
  | some (JsValue.bool b) => some b
  | _ => none

/-! Protocol layer, translated from extensions/fortivoice/src/protocol.ts. -/

/-- Envelope type tag from protocol.ts. -/
inductive FortivoiceEnvelopeType where
  | req
  | res
  | evt
deriving DecidableEq

/-- Envelope record from protocol.ts. The JavaScript session_id field can
be a string, null, or absent; null and absent are both modelled as none
(the code collapses them through the null-coalescing operator). req_id
none models an absent req_id. -/
structure FortivoiceEnvelope where
  v : Int
  type : FortivoiceEnvelopeType
  req_id : Option Str
  session_id : Option Str
  seq : Int
  ts : Str
  op : Str
  payload : JsRecord

/-- Request envelope: the narrowing carries the non-optional req_id. -/
structure FortivoiceRequestEnvelope where
  req_id : Str
  session_id : Option Str
  seq : Int
  ts : Str
  op : Str
  payload : JsRecord

/-- Collect field types allowed by the action model. -/
inductive CollectFieldType where
  | string
  | number
  | integer
  | boolean
  | date
  | datetime
deriving DecidableEq

/-- One collect schema field. -/
structure CollectField where
  key : Str
  type : CollectFieldType
  required : Option Bool
deriving DecidableEq

/-- Transfer modes of the end action. -/
inductive TransferMode where
  | warm
  | cold
deriving DecidableEq

/-- Action union from protocol.ts: speak, collect, end. The voice field
of speak holds the optional voice name. -/
inductive FortivoiceAction where
  | speak (message_id : Str) (text : Str) (barge_in : Bool) (voice : Option Str)
  | collect (fields : List CollectField)
  | «end» (reason : Str) (transfer : Option (Str × Option TransferMode))
deriving DecidableEq

/-- Realtime update extracted from a session.update payload. -/
structure FortivoiceRealtimeUpdate where
  turnId : Str
  inputType : Option Str
  text : Str
deriving DecidableEq

/-- Optional call sub-object of a session.start payload. -/
structure FortivoiceSessionStartPayload where
  callId : Option Str
  «from» : Option Str
  «to» : Option Str
  direction : Option Bool
deriving DecidableEq

/-- Model of parseFortivoiceEnvelope after JSON decoding: validates v,
type, op, ts, seq and payload, and passes req_id and session_id through
without validation. -/
def parseFortivoiceEnvelope (parsed : JsValue) : Option FortivoiceEnvelope :=
  match parsed with
  | JsValue.obj fields =>
      let typeStr := readString fields "type".data
      let op := readString fields "op".data
      let seq := readNumber fields "seq".data
      let ts := readString fields "ts".data
      let payload := readRecord fields "payload".data
      let vOk : Bool :=
        match mapGet fields "v".data with
        | some (JsValue.num n) => decide (n = 1)
        | _ => false
      let type : Option FortivoiceEnvelopeType :=
        match typeStr with
        | some s =>
            if s = "req".data then some FortivoiceEnvelopeType.req
            else if s = "res".data then some FortivoiceEnvelopeType.res
            else if s = "evt".data then some FortivoiceEnvelopeType.evt
            else none
        | none => none
      match type, op, seq, ts, payload with
      | some t, some opv, some seqv, some tsv, some payloadv =>
          if vOk then
            let reqId := readString fields "req_id".data
            let sessionId :=
              match mapGet fields "session_id".data with
              | some (JsValue.str s) => some s
              | _ => none
            some {
              v := 1
              type := t
              req_id := reqId
              session_id := sessionId
              seq := seqv
              ts := tsv
              op := opv
              payload := payloadv
            }
          else none
      | _, _, _, _, _ => none
  | _ => none

/-- Model of isFortivoiceRequestEnvelope: type req and a non-empty
req_id. -/
def isFortivoiceRequestEnvelope (e : FortivoiceEnvelope) : Bool :=
  decide (e.type = FortivoiceEnvelopeType.req) &&
    (match e.req_id with
     | some r => !r.isEmpty
     | none => false)

/-- Model of isFortivoiceResponseEnvelope: type res and a non-empty
req_id. -/
def isFortivoiceResponseEnvelope (e : FortivoiceEnvelope) : Bool :=
  decide (e.type = FortivoiceEnvelopeType.res) &&
    (match e.req_id with
     | some r => !r.isEmpty
     | none => false)

/-- Results carried by the ok responses the monitor builds: the hello
reply, the ping reply, and the actions list of the session handlers. -/
inductive FortivoiceResult where
  | helloResult (connId serverName serverVersion : Str)
      (heartbeatSec dedupeTtlSec : Int)
  | pingResult (nonce : Option Str)
  | actionsResult (actions : List FortivoiceAction)
deriving DecidableEq

/-- Tagged response payload union. The monitor builds errors from a code
and a message only, so the optional details field is not modelled. -/
inductive FortivoiceResponsePayload where
  | ok (result : FortivoiceResult)
  | error (code message : Str)
deriving DecidableEq

/-- Model of fortivoiceOk. -/
def fortivoiceOk (result : FortivoiceResult) : FortivoiceResponsePayload :=
  FortivoiceResponsePayload.ok result

/-- Model of fortivoiceError. -/
def fortivoiceError (code message : Str) : FortivoiceResponsePayload :=
  FortivoiceResponsePayload.error code message

/-- Response envelope as built by createFortivoiceResponse; its payload
is the typed response payload the handler produced. -/
structure FortivoiceWireResponse where
  v : Int
  type : FortivoiceEnvelopeType
  req_id : Str
  session_id : Option Str
  seq : Int
  ts : Str
  op : Str
  payload : FortivoiceResponsePayload
deriving DecidableEq

/-- Model of createFortivoiceResponse: copy req_id and op from the
request, session_id through the null-coalescing operator, version 1,
type res; the timestamp (impure in the source) is a parameter. -/
def createFortivoiceResponse (request : FortivoiceRequestEnvelope)
    (seq : Int) (ts : Str) (payload : FortivoiceResponsePayload) :
    FortivoiceWireResponse :=
  {
    v := 1
    type := FortivoiceEnvelopeType.res
    req_id := request.req_id
    session_id := match request.session_id with
      | some s => some s
      | none => none
    seq := seq
    ts := ts
    op := request.op
    payload := payload
  }

/-- Model of createSpeakAction: the fresh identifier (randomUUID in the
source) is a parameter used when no messageId is supplied; barge_in
defaults to true. -/
def createSpeakAction (text : Str) (messageId : Option Str)
    (bargeIn : Option Bool) (freshId : Str) : FortivoiceAction :=
  FortivoiceAction.speak (messageId.getD freshId) text (bargeIn.getD true) none

/-- Model of parseRealtimeUpdate: requires a realtime record with a
non-empty turn_id string and an input record; a missing or non-string
input text is replaced by the empty string. -/
def parseRealtimeUpdate (payload : JsRecord) : Option FortivoiceRealtimeUpdate :=
  match readRecord payload "realtime".data with
  | none => none
  | some realtime =>
      match readString realtime "turn_id".data, readRecord realtime "input".data with
      | some turnId, some input =>
          if turnId.isEmpty then none
          else
            some {
              turnId := turnId
              inputType := readString input "type".data
              text := (readString input "text".data).getD []
            }
      | _, _ => none

/-- Model of shouldProcessRealtimeInput from protocol.ts (the richer
variant): non-blank text and type user_utterance, transcript_final or
tool_result. -/
def shouldProcessRealtimeInput (update : FortivoiceRealtimeUpdate) : Bool :=
  let text := trimL update.text
  if text.isEmpty then false
  else
    decide (update.inputType = some "user_utterance".data) ||
    decide (update.inputType = some "transcript_final".data) ||
    decide (update.inputType = some "tool_result".data)

/-- Model of shouldProcessRealtimeInput from the duplicate source tree
(src/unnamed/part_002): same logic but without the tool_result case. -/
def shouldProcessRealtimeInputDup (update : FortivoiceRealtimeUpdate) : Bool :=
  let text := trimL update.text
  if text.isEmpty then false
  else
    decide (update.inputType = some "user_utterance".data) ||
    decide (update.inputType = some "transcript_final".data)

/-- Model of parseSessionStartPayload: read the optional call record.
Directions are inbound (false) and outbound (true). -/
def parseSessionStartPayload (payload : JsRecord) : FortivoiceSessionStartPayload :=
  match readRecord payload "call".data with
  | none => { callId := none, «from» := none, «to» := none, direction := none }
  | some call =>
      let directionRaw := readString call "direction".data
      let direction : Option Bool :=
        if directionRaw = some "inbound".data then some false
        else if directionRaw = some "outbound".data then some true
        else none
      {
        callId := readString call "call_id".data
        «from» := readString call "from".data
        «to» := readString call "to".data
        direction := direction
      }

/-- Model of normalizeFortivoiceTarget: trim, drop an optional
case-insensitive fortivoice: scheme label, and map empty results to
none. -/
def normalizeFortivoiceTarget (raw : Str) : Option Str :=
  let trimmed := trimL raw
  if trimmed.isEmpty then none
  else if startsWithL "fortivoice:".data (lowerL trimmed) then
    let rest := trimL (trimmed.drop "fortivoice:".data.length)
    if rest.isEmpty then none else some rest
  else some trimmed

/-! Session store, translated from extensions/fortivoice/src/state.ts.
The process-wide map keyed by account id is left implicit: every
operation acts on the state of one account. Timestamps (Date.now) and
fresh identifiers (randomUUID) are parameters. -/

/-- Queued outbound message. -/
structure QueuedMessage where
  messageId : Str
  text : Str
  createdAt : Nat
deriving DecidableEq

/-- Call info passed to the tracker; direction false is inbound, true is
outbound. -/
structure FortivoiceCallInfo where
  callId : Option Str
  «from» : Option Str
  «to» : Option Str
  direction : Option Bool
deriving DecidableEq

/-- Per-session record. -/
structure SessionState where
  sessionId : Str
  callId : Option Str
  «from» : Option Str
  «to» : Option Str
  direction : Option Bool
  lastSeenAt : Nat
deriving DecidableEq

/-- Per-account state: session registry, call index, outbound queues and
the latest-session pointer, all in insertion order. -/
structure AccountState where
  latestSessionId : Option Str
  sessions : List (Str × SessionState)
  callToSession : List (Str × Str)
  queuedBySession : List (Str × List QueuedMessage)
deriving DecidableEq

/-- The state a fresh account starts from. -/
def emptyAccountState : AccountState :=
  { latestSessionId := none, sessions := [], callToSession := [], queuedBySession := [] }

/-- Model of trackFortivoiceSession: upsert the session, refresh
lastSeenAt, point latestSessionId at it, and index its call id when that
id is a non-empty string (the source guards the index write with a
truthiness test). -/
def trackFortivoiceSession (st : AccountState) (sessionId : Str)
    (call : Option FortivoiceCallInfo) (now : Nat) : AccountState :=
  let existing := mapGet st.sessions sessionId
  let next : SessionState :=
    {
      sessionId := sessionId
      callId := (call.bind (fun c => c.callId)).orElse (fun _ => existing.bind (fun e => e.callId))
      «from» := (call.bind (fun c => c.«from»)).orElse (fun _ => existing.bind (fun e => e.«from»))
      «to» := (call.bind (fun c => c.«to»)).orElse (fun _ => existing.bind (fun e => e.«to»))
      direction := (call.bind (fun c => c.direction)).orElse (fun _ => existing.bind (fun e => e.direction))
      lastSeenAt := now
    }
  let callToSession :=
    match next.callId with
    | some cid => if cid.isEmpty then st.callToSession else mapSet st.callToSession cid sessionId
    | none => st.callToSession
  {
    latestSessionId := some sessionId
    sessions := mapSet st.sessions sessionId next
    callToSession := callToSession
    queuedBySession := st.queuedBySession
  }

/-- Model of resolveFortivoiceSessionId: latest session for an absent or
falsy target, then the session:, call:, bare-session and bare-call rules
in order. -/
def resolveFortivoiceSessionId (st : AccountState) (target : Option Str) : Option Str :=
  let normalizedTarget :=
    match target with
    | some t => if t.isEmpty then none else normalizeFortivoiceTarget t
    | none => none
  match normalizedTarget with
  | none => st.latestSessionId
  | some nt =>
      if startsWithL "session:".data (lowerL nt) then
        let sessionId := trimL (nt.drop "session:".data.length)
        if sessionId.isEmpty then none
        else if mapHas st.sessions sessionId then some sessionId else none
      else if startsWithL "call:".data (lowerL nt) then
        let callId := trimL (nt.drop "call:".data.length)
        if callId.isEmpty then none
        else mapGet st.callToSession callId
      else if mapHas st.sessions nt then some nt
      else mapGet st.callToSession nt

/-- Model of queueFortivoiceText: append a queued message whose id is
the queued- prefix on a fresh identifier. -/
def queueFortivoiceText (st : AccountState) (sessionId : Str) (text : Str)
    (freshId : Str) (now : Nat) : Str × AccountState :=
  let queue := (mapGet st.queuedBySession sessionId).getD []
  let messageId := "queued-".data ++ freshId
  let entry : QueuedMessage := { messageId := messageId, text := text, createdAt := now }
  (messageId,
    { st with queuedBySession := mapSet st.queuedBySession sessionId (queue ++ [entry]) })

/-- Model of consumeFortivoiceQueuedText: return the queue and delete it
atomically. -/
def consumeFortivoiceQueuedText (st : AccountState) (sessionId : Str) :
    List QueuedMessage × AccountState :=
  let queue := (mapGet st.queuedBySession sessionId).getD []
  (queue, { st with queuedBySession := mapDelete st.queuedBySession sessionId })

/-- Model of hasActiveFortivoiceSession. -/
def hasActiveFortivoiceSession (st : AccountState) : Bool :=
  decide (0 < st.sessions.length)

/-- Model of endFortivoiceSession: delete the session and its queue,
drop every call-index entry pointing at it, and fall back to the most
recently inserted remaining session when it was the latest. -/
def endFortivoiceSession (st : AccountState) (sessionId : Str) : AccountState :=
  let sessions := mapDelete st.sessions sessionId
  let queuedBySession := mapDelete st.queuedBySession sessionId
  let callToSession := st.callToSession.filter (fun p => decide (p.2 ≠ sessionId))
  let latestSessionId :=
    if st.latestSessionId = some sessionId then (mapKeys sessions).getLast?
    else st.latestSessionId
  {
    latestSessionId := latestSessionId
    sessions := sessions
    callToSession := callToSession
    queuedBySession := queuedBySession
  }

/-! Account resolver, translated from extensions/fortivoice/src/accounts.ts.
The plugin-sdk collaborators normalizeAccountId and DEFAULT_ACCOUNT_ID
are not part of the sources; they enter as parameters (nid, dflt), as do
the two process environment variables. Locale string comparison
(localeCompare) is modelled as code-unit lexicographic order. -/

/-- Per-account configuration fields (config-schema.ts); none models an
absent key. -/
structure FortivoiceAccountConfig where
  enabled : Option Bool
  name : Option Str
  phone : Option Str
  url : Option Str
  reconnectDelayMs : Option Int
  helloWorldOnStart : Option Bool
deriving DecidableEq

/-- Account config with every key absent. -/
def emptyAccountConfig : FortivoiceAccountConfig :=
  { enabled := none, name := none, phone := none, url := none,
    reconnectDelayMs := none, helloWorldOnStart := none }

/-- Channel-level configuration: shared fields plus the accounts mapping
and the default-account pointer. -/
structure FortivoiceConfig extends FortivoiceAccountConfig where
  accounts : Option (List (Str × FortivoiceAccountConfig))
  defaultAccount : Option Str
deriving DecidableEq

/-- The slice of the host configuration the resolver reads
(cfg.channels.fortivoice). -/
structure CoreConfig where
  fortivoice : Option FortivoiceConfig
deriving DecidableEq

/-- Resolved account, from types.ts. -/
structure ResolvedFortivoiceAccount where
  accountId : Str
  enabled : Bool
  configured : Bool
  name : Option Str
  phone : Option Str
  url : Option Str
  reconnectDelayMs : Int
  helloWorldOnStart : Bool
  config : FortivoiceAccountConfig
deriving DecidableEq

/-- JavaScript truthiness of an optional string: present and non-empty. -/
def truthyStr (o : Option Str) : Bool :=
  match o with
  | some s => !s.isEmpty
  | none => false

/-- Model of listConfiguredAccountIds: normalised keys of the accounts
mapping, dropping falsy results. -/
def listConfiguredAccountIds (nid : Str → Str) (cfg : CoreConfig) : List Str :=
  match cfg.fortivoice.bind (fun b => b.accounts) with
  | none => []
  | some accounts => ((mapKeys accounts).map nid).filter (fun s => !s.isEmpty)

/-- Model of hasTopLevelConfig: any shared field is set. -/
def hasTopLevelConfig (cfg : CoreConfig) : Bool :=
  match cfg.fortivoice with
  | none => false
  | some base =>
      truthyStr base.url || truthyStr base.phone || truthyStr base.name ||
      base.enabled.isSome || base.reconnectDelayMs.isSome ||
      base.helloWorldOnStart.isSome

/-- Model of mergeAccountConfig: shared fields overridden by the
per-account object. -/
def mergeAccountConfig (cfg : CoreConfig) (accountId : Str) : FortivoiceAccountConfig :=
  let base := cfg.fortivoice
  let shared := (base.map (fun b => b.toFortivoiceAccountConfig)).getD emptyAccountConfig
  let account :=
    ((base.bind (fun b => b.accounts)).bind (fun accs => mapGet accs accountId)).getD
      emptyAccountConfig
  {
    enabled := account.enabled.orElse (fun _ => shared.enabled)
    name := account.name.orElse (fun _ => shared.name)
    phone := account.phone.orElse (fun _ => shared.phone)
    url := account.url.orElse (fun _ => shared.url)
    reconnectDelayMs := account.reconnectDelayMs.orElse (fun _ => shared.reconnectDelayMs)
    helloWorldOnStart := account.helloWorldOnStart.orElse (fun _ => shared.helloWorldOnStart)
  }

/-- Model of normalizeUrl: trimmed and non-empty, else absent. -/
def normalizeUrl (raw : Option Str) : Option Str :=
  raw.bind (fun r =>
    let t := trimL r
    if t.isEmpty then none else some t)

/-- Model of normalizePhone: trimmed, non-empty and matching the
E.164-ish pattern, else absent. -/
def normalizePhone (raw : Option Str) : Option Str :=
  raw.bind (fun r =>
    let t := trimL r
    if t.isEmpty then none
    else if e164Test t then some t else none)

/-- Code-unit lexicographic order standing in for localeCompare. -/
def lexLe : Str → Str → Bool
  | [], _ => true
  | _ :: _, [] => false
  | c :: cs, d :: ds => if c = d then lexLe cs ds else decide (c < d)

/-- Insertion into a sorted list. -/
def insertSorted (x : Str) : List Str → List Str
  | [] => [x]
  | y :: ys => if lexLe x y then x :: y :: ys else y :: insertSorted x ys

/-- Insertion sort for account id listings. -/
def sortIds (l : List Str) : List Str := l.foldr insertSorted []

/-- Duplicate removal keeping the first occurrence, the Set semantics of
the listing. -/
def dedupeIds : List Str → List Str
  | [] => []
  | x :: xs => x :: (dedupeIds xs).filter (fun y => decide (y ≠ x))

/-- Model of listFortivoiceAccountIds: configured ids, plus the default
id when any shared field is set or nothing is configured, sorted. -/
def listFortivoiceAccountIds (nid : Str → Str) (dflt : Str) (cfg : CoreConfig) : List Str :=
  let ids := dedupeIds (listConfiguredAccountIds nid cfg)
  let ids := if hasTopLevelConfig cfg || decide (ids.length = 0) then
      if decide (dflt ∈ ids) then ids else ids ++ [dflt]
    else ids
  sortIds ids

/-- Model of resolveDefaultFortivoiceAccountId. -/
def resolveDefaultFortivoiceAccountId (nid : Str → Str) (dflt : Str) (cfg : CoreConfig) : Str :=
  let configured := (cfg.fortivoice.bind (fun b => b.defaultAccount)).bind (fun s =>
    let t := trimL s
    if t.isEmpty then none else some t)
  match configured with
  | some c => nid c
  | none =>
      let ids := listFortivoiceAccountIds nid dflt cfg
      if decide (dflt ∈ ids) then dflt else ids.headD dflt

/-- Model of resolveFortivoiceAccount. The environment variables
FORTIVOICE_WS_URL and FORTIVOICE_PHONE are the envWsUrl and envPhone
parameters and apply only to the default account. -/
def resolveFortivoiceAccount (nid : Str → Str) (dflt : Str)
    (envWsUrl envPhone : Option Str) (cfg : CoreConfig)
    (accountId : Option Str) : ResolvedFortivoiceAccount :=
  let requested := accountId.map trimL
  let fallback := resolveDefaultFortivoiceAccountId nid dflt cfg
  let aid := nid (match requested with
    | some r => if r.isEmpty then fallback else r
    | none => fallback)
  let merged := mergeAccountConfig cfg aid
  let baseEnabled := decide ((cfg.fortivoice.bind (fun b => b.enabled)) ≠ some false)
  let accountEnabled := decide (merged.enabled ≠ some false)
  let envUrl := if aid = dflt then normalizeUrl envWsUrl else none
  let envPhoneV := if aid = dflt then normalizePhone envPhone else none
  let url := (normalizeUrl merged.url).orElse (fun _ => envUrl)
  let phone := (normalizePhone merged.phone).orElse (fun _ => envPhoneV)
  {
    accountId := aid
    enabled := baseEnabled && accountEnabled
    configured := url.isSome && phone.isSome
    name := merged.name.bind (fun n =>
      let t := trimL n
      if t.isEmpty then none else some t)
    phone := phone
    url := url
    reconnectDelayMs := merged.reconnectDelayMs.getD 2000
    helloWorldOnStart := decide (merged.helloWorldOnStart ≠ some false)
    config := merged
  }

/-- Modelled from the spec: the scheme requirement that ensureWsUrl in
monitor.ts enforces through the platform URL parser (not part of the
sources): the url must parse and use a ws:// or wss:// scheme. For the
url strings of the claims this is the scheme test on the raw string. -/
def urlUsesWsSchemeSpec (s : Str) : Bool :=
  startsWithL "ws://".data (lowerL s) || startsWithL "wss://".data (lowerL s)

/-! Connection-monitor request handler, translated from
extensions/fortivoice/src/monitor.ts. The handler runs strictly after a
successful handshake (the dispatch loop drops other frames first), one
frame at a time; its effects on the per-account store and the reply it
sends are pure given the ambient inputs, which enter as parameters:
the agent bridge adapter (buildAgentActions, network I/O) as a function
from the inbound text to the action list it returns, Date.now as now,
and randomUUID as greetingId. The reply is modelled as always delivered
(the socket-open guard holds while the handler runs). -/

/-- Fixed greeting text sent when helloWorldOnStart is set. -/
def HELLO_WORLD_TEXT : Str := "Hello from OpenClaw FortiVoice channel.".data

/-- Model of queuedMessagesToActions: drain the queue, trim each text,
drop blanks, and turn the rest into speak actions keeping each queued
message id. -/
def queuedMessagesToActions (st : AccountState) (sessionId : Str) :
    List FortivoiceAction × AccountState :=
  let consumed := consumeFortivoiceQueuedText st sessionId
  let actions :=
    ((consumed.1.map (fun entry => (trimL entry.text, entry.messageId))).filter
        (fun entry => !entry.1.isEmpty)).map
      (fun entry => createSpeakAction entry.1 (some entry.2) none [])
  (actions, consumed.2)

/-- Outcome of one handled request: the store state afterwards, the
response payload sent back, and whether the agent bridge adapter was
invoked. -/
structure HandleOutcome where
  state : AccountState
  response : FortivoiceResponsePayload
  adapterCalled : Bool
deriving DecidableEq

/-- Model of handleRequest from monitor.ts, for one account. The agent
parameter is the action list the agent bridge adapter returns for the
inbound text. -/
def handleRequest (account : ResolvedFortivoiceAccount)
    (connectionId coreVersion : Str)
    (agent : Str → List FortivoiceAction) (greetingId : Str) (now : Nat)
    (st : AccountState) (request : FortivoiceRequestEnvelope) : HandleOutcome :=
  if request.op = "system.hello".data then
    {
      state := st
      response := fortivoiceOk (FortivoiceResult.helloResult connectionId
        "openclaw-fortivoice".data coreVersion 30 300)
      adapterCalled := false
    }
  else if request.op = "system.ping".data then
    let nonce := (readString request.payload "nonce".data).bind (fun n =>
      if n.isEmpty then none else some n)
    { state := st, response := fortivoiceOk (FortivoiceResult.pingResult nonce),
      adapterCalled := false }
  else if request.op = "session.start".data then
    match request.session_id with
    | none =>
        { state := st
          response := fortivoiceError "invalid_session".data
            "session.start requires session_id".data
          adapterCalled := false }
    | some sessionId =>
        if sessionId.isEmpty then
          { state := st
            response := fortivoiceError "invalid_session".data
              "session.start requires session_id".data
            adapterCalled := false }
        else
          let start := parseSessionStartPayload request.payload
          let st1 := trackFortivoiceSession st sessionId
            (some { callId := start.callId, «from» := start.«from»,
                    «to» := start.«to», direction := start.direction }) now
          let drained := queuedMessagesToActions st1 sessionId
          let actions :=
            if account.helloWorldOnStart then
              createSpeakAction HELLO_WORLD_TEXT none none greetingId :: drained.1
            else drained.1
          { state := drained.2
            response := fortivoiceOk (FortivoiceResult.actionsResult actions)
            adapterCalled := false }
  else if request.op = "session.update".data then
    match request.session_id with
    | none =>
        { state := st
          response := fortivoiceError "invalid_session".data
            "session.update requires session_id".data
          adapterCalled := false }
    | some sessionId =>
        if sessionId.isEmpty then
          { state := st
            response := fortivoiceError "invalid_session".data
              "session.update requires session_id".data
            adapterCalled := false }
        else
          let st1 := trackFortivoiceSession st sessionId none now
          let drained := queuedMessagesToActions st1 sessionId
          let update := parseRealtimeUpdate request.payload
          let invoke :=
            match update with
            | some u => shouldProcessRealtimeInput u
            | none => false
          let actions :=
            match update with
            | some u =>
                if shouldProcessRealtimeInput u then drained.1 ++ agent u.text
                else drained.1
            | none => drained.1
          { state := drained.2
            response := fortivoiceOk (FortivoiceResult.actionsResult actions)
            adapterCalled := invoke }
  else
    { state := st
      response := fortivoiceError "unsupported_op".data
        ("Unsupported operation: ".data ++ request.op)
      adapterCalled := false }

/-! Operation alphabet of the session store, for the invariant claim. -/

/-- One session-store operation with its ambient inputs. -/
inductive StoreOp where
  | track (sessionId : Str) (call : Option FortivoiceCallInfo) (now : Nat)
  | queueText (sessionId text freshId : Str) (now : Nat)
  | consumeQueue (sessionId : Str)
  | resolveTarget (target : Option Str)
  | endSession (sessionId : Str)

/-- Effect of one store operation on the account state; resolution does
not mutate. -/
def applyStoreOp (st : AccountState) : StoreOp → AccountState
  | StoreOp.track sid call now => trackFortivoiceSession st sid call now
  | StoreOp.queueText sid text fid now => (queueFortivoiceText st sid text fid now).2
  | StoreOp.consumeQueue sid => (consumeFortivoiceQueuedText st sid).2
  | StoreOp.resolveTarget _ => st
  | StoreOp.endSession sid => endFortivoiceSession st sid

/-- Run a sequence of store operations from the empty account state. -/
def runStoreOps (ops : List StoreOp) : AccountState :=
  ops.foldl applyStoreOp emptyAccountState

/-- Account-state invariants of the specification: every call-index
entry points at a live session, and the latest-session pointer is unset
or points at a live session. -/
def fortivoiceAccountInvariant (st : AccountState) : Prop :=
  (∀ p ∈ st.callToSession, mapHas st.sessions p.2 = true) ∧
  (∀ l, st.latestSessionId = some l → mapHas st.sessions l = true)

/-! Supporting lemmas about the map and string models. -/

theorem mapGet_mapSet_self {β : Type} (m : List (Str × β)) (k : Str) (v : β) :
    mapGet (mapSet m k v) k = some v := by
  induction m with
  | nil => simp [mapSet, mapGet]
  | cons p rest ih =>
      rcases p with ⟨pk, pv⟩
      by_cases h : pk = k
      · simp [mapSet, h, mapGet]
      · simp [mapSet, h, mapGet, ih]

theorem mapGet_mapSet_ne {β : Type} (m : List (Str × β)) (k k' : Str) (v : β)
    (h : k' ≠ k) : mapGet (mapSet m k v) k' = mapGet m k' := by
  have hk : ¬k = k' := fun hh => h hh.symm
  induction m with
  | nil => simp [mapSet, mapGet, hk]
  | cons p rest ih =>
      rcases p with ⟨pk, pv⟩
      by_cases hp : pk = k
      · subst hp
        simp [mapSet, mapGet, hk]
      · by_cases hp' : pk = k'
        · simp [mapSet, hp, mapGet, hp', h]
        · simp [mapSet, hp, mapGet, hp', ih]

theorem mapHas_mapSet_mono {β : Type} (m : List (Str × β)) (k k' : Str) (v : β)
    (h : mapHas m k' = true) : mapHas (mapSet m k v) k' = true := by
  by_cases hk : k' = k
  · subst hk
    simp [mapHas, mapGet_mapSet_self]
  · simpa [mapHas, mapGet_mapSet_ne m k k' v hk] using h

theorem mapGet_mapDelete_self {β : Type} (m : List (Str × β)) (k : Str) :
    mapGet (mapDelete m k) k = none := by
  induction m with
  | nil => simp [mapDelete, mapGet]
  | cons p rest ih =>
      rcases p with ⟨pk, pv⟩
      by_cases h : pk = k
      · simp [mapDelete, h, ih]
      · simp [mapDelete, h, mapGet, ih]

theorem mapGet_mapDelete_ne {β : Type} (m : List (Str × β)) (k k' : Str)
    (h : k' ≠ k) : mapGet (mapDelete m k) k' = mapGet m k' := by
  have hk : ¬k = k' := fun hh => h hh.symm
  induction m with
  | nil => simp [mapDelete]
  | cons p rest ih =>
      rcases p with ⟨pk, pv⟩
      by_cases hp : pk = k
      · subst hp
        simp [mapDelete, mapGet, hk, ih]
      · simp [mapDelete, hp, mapGet, ih]

theorem mapHas_of_mem_keys {β : Type} (m : List (Str × β)) (k : Str)
    (h : k ∈ mapKeys m) : mapHas m k = true := by
  induction m with
  | nil => simp [mapKeys] at h
  | cons p rest ih =>
      rcases p with ⟨pk, pv⟩
      simp only [mapKeys, List.map_cons, List.mem_cons] at h
      by_cases hp : pk = k
      · simp [mapHas, mapGet, hp]
      · rcases h with h | h
        · exact absurd h.symm hp
        · simpa [mapHas, mapGet, hp] using ih h

theorem mapGet_filter_value_ne {β : Type} [DecidableEq β] (m : List (Str × β))
    (bad : β) (c : Str) (s : β)
    (h : mapGet (m.filter (fun p => decide (p.2 ≠ bad))) c = some s) :
    s ≠ bad := by
  induction m with
  | nil => simp [mapGet] at h
  | cons p rest ih =>
      rcases p with ⟨pk, pv⟩
      by_cases hb : pv = bad
      · simp only [List.filter_cons, hb] at h
        simp only [ne_eq, not_true_eq_false] at h
        simpa using ih (by simpa using h)
      · have hd : (decide (((pk, pv) : Str × β).2 ≠ bad)) = true := by
          simp [hb]
        simp only [List.filter_cons, hd, if_pos rfl] at h
        by_cases hpc : pk = c
        · simp [mapGet, hpc] at h
          exact h ▸ hb
        · simp only [mapGet, hpc, if_neg hpc] at h
          exact ih h

theorem mem_mapSet {β : Type} (m : List (Str × β)) (k : Str) (v : β) (p : Str × β)
    (h : p ∈ mapSet m k v) : p ∈ m ∨ p = (k, v) := by
  induction m with
  | nil =>
      simp only [mapSet, List.mem_singleton] at h
      exact Or.inr h
  | cons q rest ih =>
      rcases q with ⟨qk, qv⟩
      by_cases hq : qk = k
      · subst hq
        have hc : p ∈ (qk, v) :: rest := by simpa [mapSet] using h
        rcases List.mem_cons.mp hc with hc2 | hc2
        · exact Or.inr hc2
        · exact Or.inl (List.mem_cons_of_mem _ hc2)
      · simp only [mapSet, if_neg hq, List.mem_cons] at h
        rcases h with h | h
        · exact Or.inl (by simp [h])
        · rcases ih h with h2 | h2
          · exact Or.inl (List.mem_cons_of_mem _ h2)
          · exact Or.inr h2

theorem dropWhile_fix_head {l : Str} (c : Char) (t : Str)
    (h : l.dropWhile isJsWs = l) (he : l = c :: t) : isJsWs c = false := by
  subst he
  by_contra hc
  have hc2 : isJsWs c = true := by
    cases hcc : isJsWs c
    · exact absurd hcc hc
    · rfl
  rw [List.dropWhile_cons_of_pos hc2] at h
  have := (List.dropWhile_sublist (l := t) isJsWs).length_le
  rw [h] at this
  simp at this

theorem dropWhile_append_fix {l : Str} (m : Str) (hne : l ≠ [])
    (h : l.dropWhile isJsWs = l) : (l ++ m).dropWhile isJsWs = l ++ m := by
  cases l with
  | nil => exact absurd rfl hne
  | cons c t =>
      have hc : isJsWs c = false := dropWhile_fix_head c t h rfl
      simp [List.cons_append, List.dropWhile_cons, hc]

theorem trimL_parts {s : Str} (h : trimL s = s) :
    s.dropWhile isJsWs = s ∧ s.reverse.dropWhile isJsWs = s.reverse := by
  have hlen : (trimL s).length = s.length := by rw [h]
  have hb : ((s.dropWhile isJsWs).reverse.dropWhile isJsWs).length = s.length := by
    simpa [trimL] using hlen
  have hsub1 : List.Sublist (s.dropWhile isJsWs) s := List.dropWhile_sublist isJsWs
  have hle2 : ((s.dropWhile isJsWs).reverse.dropWhile isJsWs).length ≤
      (s.dropWhile isJsWs).length := by
    simpa using (List.dropWhile_sublist (l := (s.dropWhile isJsWs).reverse) isJsWs).length_le
  have ha : (s.dropWhile isJsWs).length = s.length :=
    le_antisymm hsub1.length_le (by omega)
  have haeq : s.dropWhile isJsWs = s := hsub1.eq_of_length ha
  refine ⟨haeq, ?_⟩
  have hsub3 : List.Sublist (s.reverse.dropWhile isJsWs) s.reverse := List.dropWhile_sublist isJsWs
  have hbl : (s.reverse.dropWhile isJsWs).length = s.reverse.length := by
    rw [haeq] at hb
    simpa using hb
  exact hsub3.eq_of_length hbl

theorem trimL_append_fix (pre i : Str) (hpre1 : pre.dropWhile isJsWs = pre)
    (hpre2 : pre ≠ []) (hid : trimL i = i) (hne : i ≠ []) :
    trimL (pre ++ i) = pre ++ i := by
  obtain ⟨h1, h2⟩ := trimL_parts hid
  have e1 : (pre ++ i).dropWhile isJsWs = pre ++ i := dropWhile_append_fix i hpre2 hpre1
  have hrne : i.reverse ≠ [] := by simpa using hne
  have e2 : (i.reverse ++ pre.reverse).dropWhile isJsWs = i.reverse ++ pre.reverse :=
    dropWhile_append_fix pre.reverse hrne h2
  simp [trimL, e1, List.reverse_append, e2]

theorem startsWithL_append_self (p s : Str) : startsWithL p (p ++ s) = true := by
  induction p with
  | nil => simp [startsWithL]
  | cons c cs ih => simp [startsWithL, ih]

theorem startsWithL_head_ne (a : Char) (ps : Str) (b : Char) (cs : Str)
    (h : a ≠ b) : startsWithL (a :: ps) (b :: cs) = false := by
  simp [startsWithL, h]

theorem normalizePhone_sound (raw : Option Str) (p : Str)
    (h : normalizePhone raw = some p) : e164Test p = true := by
  cases raw with
  | none => simp [normalizePhone] at h
  | some r =>
      simp [normalizePhone] at h
      obtain ⟨h1, h2, h3⟩ := h
      exact h3 ▸ h2

theorem normalizeUrl_sound (raw : Option Str) (u : Str)
    (h : normalizeUrl raw = some u) : u.isEmpty = false := by
  cases raw with
  | none => simp [normalizeUrl] at h
  | some r =>
      simp [normalizeUrl] at h
      obtain ⟨h1, h2⟩ := h
      subst h2
      cases htr : trimL r with
      | nil => exact absurd htr h1
      | cons c t => rfl

theorem orElse_opt_cases {α : Type} (a : Option α) (b : Unit → Option α) (x : α)
    (h : (a.orElse b) = some x) : a = some x ∨ b () = some x := by
  cases a with
  | none => exact Or.inr (by simpa [Option.orElse] using h)
  | some y => exact Or.inl (by simpa [Option.orElse] using h)

/-! Claim C4. -/

/-- C4: every response envelope built from a request copies the req_id
and op of the request, its session_id equals the session_id of the
request, its version is 1 and its type is res. -/
theorem fortivoice_response_copies_request_fields
    (request : FortivoiceRequestEnvelope) (seq : Int) (ts : Str)
    (payload : FortivoiceResponsePayload) :
    (createFortivoiceResponse request seq ts payload).req_id = request.req_id ∧
    (createFortivoiceResponse request seq ts payload).op = request.op ∧
    (createFortivoiceResponse request seq ts payload).session_id = request.session_id ∧
    (createFortivoiceResponse request seq ts payload).v = 1 ∧
    (createFortivoiceResponse request seq ts payload).type = FortivoiceEnvelopeType.res := by
  refine ⟨rfl, rfl, ?_, rfl, rfl⟩
  cases h : request.session_id <;> simp [createFortivoiceResponse, h]

/-- Witness for C4 at a concrete request. -/
theorem fortivoice_response_copies_request_fields_witness :
    (createFortivoiceResponse
        { req_id := "r1".data, session_id := some "s1".data, seq := 1,
          ts := "t".data, op := "session.update".data, payload := [] }
        2 "t2".data (fortivoiceOk (FortivoiceResult.actionsResult []))).req_id = "r1".data ∧
    (createFortivoiceResponse
        { req_id := "r1".data, session_id := some "s1".data, seq := 1,
          ts := "t".data, op := "session.update".data, payload := [] }
        2 "t2".data (fortivoiceOk (FortivoiceResult.actionsResult []))).op = "session.update".data := by
  obtain ⟨h1, h2, _⟩ := fortivoice_response_copies_request_fields
    { req_id := "r1".data, session_id := some "s1".data, seq := 1,
      ts := "t".data, op := "session.update".data, payload := [] }
    2 "t2".data (fortivoiceOk (FortivoiceResult.actionsResult []))
  exact ⟨h1, h2⟩

/-! Claim C5. -/

/-- A decoded frame with type res, all parse-validated fields present,
and no req_id. -/
def resFrameWithoutReqId : JsValue :=
  JsValue.obj [
    ("v".data, JsValue.num 1),
    ("type".data, JsValue.str "res".data),
    ("seq".data, JsValue.num 3),
    ("ts".data, JsValue.str "2026-02-11T00:00:00.000Z".data),
    ("op".data, JsValue.str "system.ping".data),
    ("payload".data, JsValue.obj [])
  ]

/-- C5 counterexample: the envelope parser does not reject a type-res
frame lacking req_id; parseFortivoiceEnvelope returns an envelope (not
the parse-failure signal) whose type is res and whose req_id is absent. -/
theorem fortivoice_parse_accepts_res_without_req_id :
    (parseFortivoiceEnvelope resFrameWithoutReqId).isSome = true ∧
    (parseFortivoiceEnvelope resFrameWithoutReqId).map (fun e => e.req_id) = some none ∧
    (parseFortivoiceEnvelope resFrameWithoutReqId).map (fun e => e.type) =
      some FortivoiceEnvelopeType.res := by
  refine ⟨?_, ?_, ?_⟩ <;> decide

/-- C5 amended: req_id is not enforced by the parser; it is the request
and response classifiers that require a non-empty req_id, so an envelope
without one is never classified as a request or a response. -/
theorem fortivoice_req_id_required_by_classifiers (e : FortivoiceEnvelope)
    (h : e.req_id = none) :
    isFortivoiceRequestEnvelope e = false ∧ isFortivoiceResponseEnvelope e = false := by
  simp [isFortivoiceRequestEnvelope, isFortivoiceResponseEnvelope, h]

/-- Witness for the amended C5 at a concrete envelope. -/
theorem fortivoice_req_id_required_by_classifiers_witness :
    isFortivoiceRequestEnvelope
      { v := 1, type := FortivoiceEnvelopeType.res, req_id := none,
        session_id := none, seq := 3, ts := "t".data, op := "system.ping".data,
        payload := [] } = false ∧
    isFortivoiceResponseEnvelope
      { v := 1, type := FortivoiceEnvelopeType.res, req_id := none,
        session_id := none, seq := 3, ts := "t".data, op := "system.ping".data,
        payload := [] } = false :=
  fortivoice_req_id_required_by_classifiers
    { v := 1, type := FortivoiceEnvelopeType.res, req_id := none,
      session_id := none, seq := 3, ts := "t".data, op := "system.ping".data,
      payload := [] } rfl

/-! Claim C8. -/

/-- C8: the two near-duplicate protocol implementations disagree on
tool_result: on a realtime update with non-empty text and input type
tool_result the richer variant returns true and the duplicate variant
returns false, and the two functions agree on every update whose input
type is not tool_result (in particular on user_utterance and
transcript_final). -/
theorem fortivoice_variants_disagree_on_tool_result :
    (shouldProcessRealtimeInput
        { turnId := "t1".data, inputType := some "tool_result".data, text := "x".data } = true ∧
     shouldProcessRealtimeInputDup
        { turnId := "t1".data, inputType := some "tool_result".data, text := "x".data } = false) ∧
    ∀ u : FortivoiceRealtimeUpdate, u.inputType ≠ some "tool_result".data →
      shouldProcessRealtimeInput u = shouldProcessRealtimeInputDup u := by
  constructor
  · constructor <;> decide
  · intro u h
    by_cases he : (trimL u.text).isEmpty
    · simp [shouldProcessRealtimeInput, shouldProcessRealtimeInputDup, he]
    · simp [shouldProcessRealtimeInput, shouldProcessRealtimeInputDup, he, h]

/-- Witness for C8 at a concrete non-tool_result update. -/
theorem fortivoice_variants_disagree_on_tool_result_witness :
    shouldProcessRealtimeInput
      { turnId := "t1".data, inputType := some "user_utterance".data, text := "x".data } =
    shouldProcessRealtimeInputDup
      { turnId := "t1".data, inputType := some "user_utterance".data, text := "x".data } :=
  fortivoice_variants_disagree_on_tool_result.2
    { turnId := "t1".data, inputType := some "user_utterance".data, text := "x".data }
    (by decide)

/-! Claim C6. -/

/-- Channel configuration with a phone in E.164 form and a url that is
present but does not use a ws:// or wss:// scheme. -/
def cfgHttpUrl : CoreConfig :=
  { fortivoice := some {
      enabled := none, name := none,
      phone := some "+12345678".data,
      url := some "http://example.com".data,
      reconnectDelayMs := none, helloWorldOnStart := none,
      accounts := none, defaultAccount := none } }

/-- C6 counterexample: the resolver reports configured = true for a url
that does not use a ws:// or wss:// scheme, so configured is not
equivalent to the conjunction stated by the claim. -/
theorem fortivoice_configured_ignores_scheme :
    (resolveFortivoiceAccount (fun s => s) "default".data none none cfgHttpUrl
        (some "a".data)).configured = true ∧
    (resolveFortivoiceAccount (fun s => s) "default".data none none cfgHttpUrl
        (some "a".data)).url = some "http://example.com".data ∧
    urlUsesWsSchemeSpec "http://example.com".data = false := by
  refine ⟨?_, ?_, ?_⟩ <;> decide

/-- C6 amended: for every configuration and account id, configured is
true exactly when a (non-empty, trimmed) url is present and a phone is
present, where the resolved phone always matches the E.164-ish pattern;
the ws:// or wss:// scheme requirement is not part of configured (it is
enforced later, when the monitor starts). -/
theorem fortivoice_configured_amended (nid : Str → Str) (dflt : Str)
    (envWsUrl envPhone : Option Str) (cfg : CoreConfig) (accountId : Option Str) :
    ((resolveFortivoiceAccount nid dflt envWsUrl envPhone cfg accountId).configured =
      ((resolveFortivoiceAccount nid dflt envWsUrl envPhone cfg accountId).url.isSome &&
       (resolveFortivoiceAccount nid dflt envWsUrl envPhone cfg accountId).phone.isSome)) ∧
    (∀ p, (resolveFortivoiceAccount nid dflt envWsUrl envPhone cfg accountId).phone = some p →
      e164Test p = true) ∧
    (∀ u, (resolveFortivoiceAccount nid dflt envWsUrl envPhone cfg accountId).url = some u →
      u.isEmpty = false) := by
  refine ⟨rfl, ?_, ?_⟩
  · intro p hp
    simp only [resolveFortivoiceAccount] at hp
    rcases orElse_opt_cases _ _ _ hp with h | h
    · exact normalizePhone_sound _ _ h
    · by_cases hd : nid (match accountId.map trimL with
        | some r => if r.isEmpty then resolveDefaultFortivoiceAccountId nid dflt cfg else r
        | none => resolveDefaultFortivoiceAccountId nid dflt cfg) = dflt
      · rw [if_pos hd] at h
        exact normalizePhone_sound _ _ h
      · rw [if_neg hd] at h
        exact absurd h (by simp)
  · intro u hu
    simp only [resolveFortivoiceAccount] at hu
    rcases orElse_opt_cases _ _ _ hu with h | h
    · exact normalizeUrl_sound _ _ h
    · by_cases hd : nid (match accountId.map trimL with
        | some r => if r.isEmpty then resolveDefaultFortivoiceAccountId nid dflt cfg else r
        | none => resolveDefaultFortivoiceAccountId nid dflt cfg) = dflt
      · rw [if_pos hd] at h
        exact normalizeUrl_sound _ _ h
      · rw [if_neg hd] at h
        exact absurd h (by simp)

/-- Witness for the amended C6 at a concrete configuration. -/
theorem fortivoice_configured_amended_witness :
    e164Test "+12345678".data = true :=
  (fortivoice_configured_amended (fun s => s) "default".data none none cfgHttpUrl
      (some "a".data)).2.1 "+12345678".data (by decide)

/-! Claim C10. -/

/-- Session s1 tracked with call c1. -/
def stTrackA : AccountState :=
  trackFortivoiceSession emptyAccountState "s1".data
    (some { callId := some "c1".data, «from» := none, «to» := none, direction := none }) 0

/-- Then session s2 tracked with the same call c1, re-pointing the call
index at s2. -/
def stTrackB : AccountState :=
  trackFortivoiceSession stTrackA "s2".data
    (some { callId := some "c1".data, «from» := none, «to» := none, direction := none }) 1

/-- C10 counterexample: re-tracking the already-tracked session s1 with
no call information changes a call-index entry: before the call index
maps c1 to s2, afterwards it maps c1 back to s1, so the call index is
not unchanged. -/
theorem fortivoice_track_no_call_moves_call_index :
    (mapGet stTrackB.sessions "s1".data).isSome = true ∧
    mapGet stTrackB.callToSession "c1".data = some "s2".data ∧
    mapGet (trackFortivoiceSession stTrackB "s1".data none 2).callToSession "c1".data =
      some "s1".data := by
  refine ⟨?_, ?_, ?_⟩ <;> decide

/-- C10 amended: tracking an already-tracked session with no call
information preserves its callId, from, to and direction, changing only
lastSeenAt, sets latest_session_id to it, and leaves all other sessions
and all queues unchanged; the call index is unchanged except that the
existing (non-empty) callId of this session is re-pointed at it, leaving
entries for every other call id unchanged. -/
theorem fortivoice_track_existing_frame (st : AccountState) (sid : Str)
    (s : SessionState) (now : Nat) (hget : mapGet st.sessions sid = some s) :
    mapGet (trackFortivoiceSession st sid none now).sessions sid =
      some { sessionId := sid, callId := s.callId, «from» := s.«from»,
             «to» := s.«to», direction := s.direction, lastSeenAt := now } ∧
    (trackFortivoiceSession st sid none now).latestSessionId = some sid ∧
    (∀ k, k ≠ sid →
      mapGet (trackFortivoiceSession st sid none now).sessions k = mapGet st.sessions k) ∧
    (trackFortivoiceSession st sid none now).queuedBySession = st.queuedBySession ∧
    (s.callId = none →
      (trackFortivoiceSession st sid none now).callToSession = st.callToSession) ∧
    (∀ cid, s.callId = some cid → cid.isEmpty = true →
      (trackFortivoiceSession st sid none now).callToSession = st.callToSession) ∧
    (∀ cid, s.callId = some cid → cid.isEmpty = false →
      mapGet (trackFortivoiceSession st sid none now).callToSession cid = some sid ∧
      ∀ c, c ≠ cid →
        mapGet (trackFortivoiceSession st sid none now).callToSession c =
          mapGet st.callToSession c) := by
  have hsess : (trackFortivoiceSession st sid none now).sessions =
      mapSet st.sessions sid
        { sessionId := sid, callId := s.callId, «from» := s.«from»,
          «to» := s.«to», direction := s.direction, lastSeenAt := now } := by
    simp [trackFortivoiceSession, hget, Option.orElse]
  refine ⟨?_, rfl, ?_, rfl, ?_, ?_, ?_⟩
  · rw [hsess]
    exact mapGet_mapSet_self _ _ _
  · intro k hk
    rw [hsess]
    exact mapGet_mapSet_ne _ _ _ _ hk
  · intro hc
    simp [trackFortivoiceSession, hget, hc, Option.orElse]
  · intro cid hc hce
    simp [trackFortivoiceSession, hget, hc, hce, Option.orElse]
  · intro cid hc hce
    have hcts : (trackFortivoiceSession st sid none now).callToSession =
        mapSet st.callToSession cid sid := by
      simp [trackFortivoiceSession, hget, hc, hce, Option.orElse]
    refine ⟨?_, ?_⟩
    · rw [hcts]
      exact mapGet_mapSet_self _ _ _
    · intro c hcne
      rw [hcts]
      exact mapGet_mapSet_ne _ _ _ _ hcne

/-- Witness for the amended C10 at a concrete state. -/
theorem fortivoice_track_existing_frame_witness :
    (trackFortivoiceSession stTrackB "s1".data none 2).latestSessionId = some "s1".data :=
  (fortivoice_track_existing_frame stTrackB "s1".data
      { sessionId := "s1".data, callId := some "c1".data, «from» := none,
        «to» := none, direction := none, lastSeenAt := 0 } 2 (by decide)).2.1

/-! Claim C1. -/

theorem queuedActions_filterMap (q : List QueuedMessage) :
    ((q.map (fun entry => (trimL entry.text, entry.messageId))).filter
        (fun entry => !entry.1.isEmpty)).map
      (fun entry => createSpeakAction entry.1 (some entry.2) none []) =
    q.filterMap (fun m =>
      if (trimL m.text).isEmpty then none
      else some (FortivoiceAction.speak m.messageId (trimL m.text) true none)) := by
  induction q with
  | nil => rfl
  | cons m rest ih =>
      by_cases hm : (trimL m.text).isEmpty
      · have hmeq : trimL m.text = [] := by simpa using hm
        simp [hm, hmeq, ih]
      · have hmne : ¬trimL m.text = [] := by simpa using hm
        simpa [hm, hmne, createSpeakAction] using ih

/-- C1: a session.start request with a non-empty session_id, handled with
helloWorldOnStart true, is answered with a success response whose result
is an actions list starting with a speak action carrying the fixed
greeting text, followed by one speak action per queued message with
non-blank text (carrying that message id) in queue order, and an
immediately following consume of the queue returns the empty list. The
handler only runs after a successful handshake (the dispatch loop drops
all other frames until then). -/
theorem fortivoice_session_start_greeting_and_drain
    (account : ResolvedFortivoiceAccount) (connId ver : Str)
    (agent : Str → List FortivoiceAction) (gid : Str) (now : Nat)
    (st : AccountState) (request : FortivoiceRequestEnvelope) (sid : Str)
    (hop : request.op = "session.start".data)
    (hsid : request.session_id = some sid)
    (hne : sid.isEmpty = false)
    (hw : account.helloWorldOnStart = true) :
    (handleRequest account connId ver agent gid now st request).response =
      fortivoiceOk (FortivoiceResult.actionsResult
        (FortivoiceAction.speak gid HELLO_WORLD_TEXT true none ::
          ((mapGet st.queuedBySession sid).getD []).filterMap (fun m =>
            if (trimL m.text).isEmpty then none
            else some (FortivoiceAction.speak m.messageId (trimL m.text) true none)))) ∧
    (consumeFortivoiceQueuedText
        (handleRequest account connId ver agent gid now st request).state sid).1 = [] := by
  have h1 : ¬("session.start".data = "system.hello".data) := by decide
  have h2 : ¬("session.start".data = "system.ping".data) := by decide
  constructor
  · simp only [handleRequest, hop, if_neg h1, if_neg h2, if_pos rfl, hsid, hne,
      Bool.false_eq_true, if_false, hw, if_true, queuedMessagesToActions,
      consumeFortivoiceQueuedText, trackFortivoiceSession, queuedActions_filterMap]
    simp [createSpeakAction, fortivoiceOk]
  · simp only [handleRequest, hop, if_neg h1, if_neg h2, if_pos rfl, hsid, hne,
      Bool.false_eq_true, if_false, hw, if_true, queuedMessagesToActions,
      consumeFortivoiceQueuedText, trackFortivoiceSession]
    simp [mapGet_mapDelete_self]

/-- Concrete account with helloWorldOnStart at its default. -/
def acctHelloOn : ResolvedFortivoiceAccount :=
  { accountId := "default".data, enabled := true, configured := true,
    name := none, phone := some "+12345678".data, url := some "ws://x".data,
    reconnectDelayMs := 2000, helloWorldOnStart := true,
    config := emptyAccountConfig }

/-- Account state with one message queued for session s1. -/
def stQueuedHi : AccountState :=
  (queueFortivoiceText emptyAccountState "s1".data "hi".data "u1".data 0).2

/-- Concrete session.start request for session s1. -/
def reqStartS1 : FortivoiceRequestEnvelope :=
  { req_id := "r1".data, session_id := some "s1".data, seq := 1,
    ts := "t".data, op := "session.start".data,
    payload := [("call".data, JsValue.obj [("call_id".data, JsValue.str "c1".data)])] }

/-- Witness for C1: the concrete session.start of the specification
scenario, with the message hi queued beforehand. -/
theorem fortivoice_session_start_greeting_and_drain_witness :
    (handleRequest acctHelloOn "conn".data "v".data (fun _ => []) "g1".data 5
        stQueuedHi reqStartS1).response =
      fortivoiceOk (FortivoiceResult.actionsResult
        (FortivoiceAction.speak "g1".data HELLO_WORLD_TEXT true none ::
          ((mapGet stQueuedHi.queuedBySession "s1".data).getD []).filterMap (fun m =>
            if (trimL m.text).isEmpty then none
            else some (FortivoiceAction.speak m.messageId (trimL m.text) true none)))) ∧
    (consumeFortivoiceQueuedText
        (handleRequest acctHelloOn "conn".data "v".data (fun _ => []) "g1".data 5
            stQueuedHi reqStartS1).state "s1".data).1 = [] :=
  fortivoice_session_start_greeting_and_drain acctHelloOn "conn".data "v".data
    (fun _ => []) "g1".data 5 stQueuedHi reqStartS1 "s1".data rfl rfl rfl rfl

/-! Claims C2 and C9. -/

theorem shouldProcessRealtimeInput_iff (u : FortivoiceRealtimeUpdate) :
    shouldProcessRealtimeInput u = true ↔
      ((trimL u.text).isEmpty = false ∧
        (u.inputType = some "user_utterance".data ∨
         u.inputType = some "transcript_final".data ∨
         u.inputType = some "tool_result".data)) := by
  by_cases he : (trimL u.text).isEmpty
  · simp [shouldProcessRealtimeInput, he]
  · simp [shouldProcessRealtimeInput, he, or_assoc]

/-- Payload of a session.update with turn_id t1 and a user_utterance
input whose text field is present but whitespace-only. -/
def payloadWsText : JsRecord :=
  [("realtime".data, JsValue.obj [
      ("turn_id".data, JsValue.str "t1".data),
      ("input".data, JsValue.obj [
        ("type".data, JsValue.str "user_utterance".data),
        ("text".data, JsValue.str " ".data)])])]

/-- Concrete session.update request carrying that payload. -/
def reqUpdateWsText : FortivoiceRequestEnvelope :=
  { req_id := "r2".data, session_id := some "s1".data, seq := 1,
    ts := "t".data, op := "session.update".data, payload := payloadWsText }

/-- C2 counterexample: a session.update whose payload contains
realtime.turn_id (a string), a realtime.input object with a text field,
and input type user_utterance, for which the adapter is nevertheless not
invoked (the text is whitespace-only), refuting the claimed equivalence. -/
theorem fortivoice_update_whitespace_not_invoked :
    parseRealtimeUpdate payloadWsText =
      some { turnId := "t1".data, inputType := some "user_utterance".data,
             text := " ".data } ∧
    (handleRequest acctHelloOn "conn".data "v".data
        (fun _ => [FortivoiceAction.speak "a".data "x".data true none]) "g".data 0
        emptyAccountState reqUpdateWsText).adapterCalled = false := by
  refine ⟨?_, ?_⟩ <;> decide

/-- C2 amended: for a session.update with non-empty session_id, the agent
bridge adapter is invoked exactly when the payload parses to a realtime
update (realtime record, non-empty turn_id string, input record) whose
text trims non-empty and whose input type is user_utterance,
transcript_final or tool_result; and whatever the case, the reply is a
success response carrying an actions array. In particular
transcript_partial never invokes the adapter. -/
theorem fortivoice_session_update_adapter_gate
    (account : ResolvedFortivoiceAccount) (connId ver : Str)
    (agent : Str → List FortivoiceAction) (gid : Str) (now : Nat)
    (st : AccountState) (request : FortivoiceRequestEnvelope) (sid : Str)
    (hop : request.op = "session.update".data)
    (hsid : request.session_id = some sid)
    (hne : sid.isEmpty = false) :
    ((handleRequest account connId ver agent gid now st request).adapterCalled = true ↔
      ∃ u, parseRealtimeUpdate request.payload = some u ∧
        (trimL u.text).isEmpty = false ∧
        (u.inputType = some "user_utterance".data ∨
         u.inputType = some "transcript_final".data ∨
         u.inputType = some "tool_result".data)) ∧
    ∃ acts, (handleRequest account connId ver agent gid now st request).response =
      fortivoiceOk (FortivoiceResult.actionsResult acts) := by
  have h1 : ¬("session.update".data = "system.hello".data) := by decide
  have h2 : ¬("session.update".data = "system.ping".data) := by decide
  have h3 : ¬("session.update".data = "session.start".data) := by decide
  constructor
  · simp only [handleRequest, hop, if_neg h1, if_neg h2, if_neg h3, if_pos rfl,
      hsid, hne, Bool.false_eq_true, if_false]
    cases hu : parseRealtimeUpdate request.payload with
    | none => simp [hu]
    | some u => simp [hu, shouldProcessRealtimeInput_iff]
  · simp only [handleRequest, hop, if_neg h1, if_neg h2, if_neg h3, if_pos rfl,
      hsid, hne, Bool.false_eq_true, if_false]
    exact ⟨_, rfl⟩

/-- Payload of a session.update with a non-blank user utterance. -/
def payloadHelloText : JsRecord :=
  [("realtime".data, JsValue.obj [
      ("turn_id".data, JsValue.str "t1".data),
      ("input".data, JsValue.obj [
        ("type".data, JsValue.str "user_utterance".data),
        ("text".data, JsValue.str "hello".data)])])]

/-- Concrete session.update request carrying that payload. -/
def reqUpdateHelloText : FortivoiceRequestEnvelope :=
  { req_id := "r3".data, session_id := some "s1".data, seq := 1,
    ts := "t".data, op := "session.update".data, payload := payloadHelloText }

/-- Witness for the amended C2: on a non-blank user utterance the adapter
is invoked. -/
theorem fortivoice_session_update_adapter_gate_witness :
    (handleRequest acctHelloOn "conn".data "v".data (fun _ => []) "g".data 0
        emptyAccountState reqUpdateHelloText).adapterCalled = true :=
  (fortivoice_session_update_adapter_gate acctHelloOn "conn".data "v".data
      (fun _ => []) "g".data 0 emptyAccountState reqUpdateHelloText "s1".data
      rfl rfl rfl).1.mpr
    ⟨{ turnId := "t1".data, inputType := some "user_utterance".data,
       text := "hello".data }, by decide, by decide, Or.inl rfl⟩

/-- C9: a realtime update whose text trims to the empty string is never
processed: shouldProcessRealtimeInput returns false regardless of the
input type, so such a session.update never invokes the agent bridge
adapter; and when the input record has no text field, parseRealtimeUpdate
substitutes the empty string. -/
theorem fortivoice_blank_text_never_invokes
    (account : ResolvedFortivoiceAccount) (connId ver : Str)
    (agent : Str → List FortivoiceAction) (gid : Str) (now : Nat)
    (st : AccountState) (request : FortivoiceRequestEnvelope) (sid : Str)
    (u : FortivoiceRealtimeUpdate)
    (hop : request.op = "session.update".data)
    (hsid : request.session_id = some sid)
    (hne : sid.isEmpty = false)
    (hu : parseRealtimeUpdate request.payload = some u)
    (ht : (trimL u.text).isEmpty = true) :
    shouldProcessRealtimeInput u = false ∧
    (handleRequest account connId ver agent gid now st request).adapterCalled = false ∧
    ∀ (p rt inp : JsRecord) (v : FortivoiceRealtimeUpdate),
      readRecord p "realtime".data = some rt →
      readRecord rt "input".data = some inp →
      readString inp "text".data = none →
      parseRealtimeUpdate p = some v → v.text = [] := by
  have hsp : shouldProcessRealtimeInput u = false := by
    simp [shouldProcessRealtimeInput, ht]
  have h1 : ¬("session.update".data = "system.hello".data) := by decide
  have h2 : ¬("session.update".data = "system.ping".data) := by decide
  have h3 : ¬("session.update".data = "session.start".data) := by decide
  refine ⟨hsp, ?_, ?_⟩
  · simp only [handleRequest, hop, if_neg h1, if_neg h2, if_neg h3, if_pos rfl,
      hsid, hne, Bool.false_eq_true, if_false]
    simp [hu, hsp]
  · intro p rt inp v hrt hinp htext hv
    simp only [parseRealtimeUpdate, hrt, hinp] at hv
    cases hti : readString rt "turn_id".data with
    | none => rw [hti] at hv; simp at hv
    | some tid =>
        rw [hti] at hv
        by_cases hE : tid.isEmpty
        · simp [hE] at hv
        · simp [hE, htext] at hv
          rw [← hv]

/-- Witness for C9: the whitespace-text update is not processed. -/
theorem fortivoice_blank_text_never_invokes_witness :
    shouldProcessRealtimeInput
      { turnId := "t1".data, inputType := some "user_utterance".data,
        text := " ".data } = false :=
  (fortivoice_blank_text_never_invokes acctHelloOn "conn".data "v".data
      (fun _ => []) "g".data 0 emptyAccountState reqUpdateWsText "s1".data
      { turnId := "t1".data, inputType := some "user_utterance".data, text := " ".data }
      rfl rfl rfl (by decide) (by decide)).1

/-! Claim C3. -/

theorem track_invariant (st : AccountState) (sid : Str)
    (call : Option FortivoiceCallInfo) (now : Nat)
    (hcall : ∀ p ∈ st.callToSession, mapHas st.sessions p.2 = true) :
    fortivoiceAccountInvariant (trackFortivoiceSession st sid call now) := by
  constructor
  · intro p hp
    revert hp
    simp only [trackFortivoiceSession]
    split
    · intro hp
      split at hp
      · exact mapHas_mapSet_mono _ _ _ _ (hcall p hp)
      · rcases mem_mapSet _ _ _ _ hp with h | h
        · exact mapHas_mapSet_mono _ _ _ _ (hcall p h)
        · rw [h]
          simp [mapHas, mapGet_mapSet_self]
    · intro hp
      exact mapHas_mapSet_mono _ _ _ _ (hcall p hp)
  · intro l hl
    simp only [trackFortivoiceSession] at hl
    have hls : sid = l := by
      simpa using hl
    subst hls
    simp [trackFortivoiceSession, mapHas, mapGet_mapSet_self]

theorem end_invariant (st : AccountState) (sid : Str)
    (hcall : ∀ p ∈ st.callToSession, mapHas st.sessions p.2 = true)
    (hlatest : ∀ l, st.latestSessionId = some l → mapHas st.sessions l = true) :
    fortivoiceAccountInvariant (endFortivoiceSession st sid) := by
  constructor
  · intro p hp
    simp only [endFortivoiceSession] at hp ⊢
    have hmem := List.mem_filter.mp hp
    have hpne : p.2 ≠ sid := by simpa using hmem.2
    have hh := hcall p hmem.1
    simpa [mapHas, mapGet_mapDelete_ne _ _ _ hpne] using hh
  · intro l hl
    simp only [endFortivoiceSession] at hl ⊢
    by_cases hls : st.latestSessionId = some sid
    · rw [if_pos hls] at hl
      exact mapHas_of_mem_keys _ _ (List.mem_of_getLast?_eq_some hl)
    · rw [if_neg hls] at hl
      have hlsid : l ≠ sid := by
        rintro rfl
        exact hls hl
      have hh := hlatest l hl
      simpa [mapHas, mapGet_mapDelete_ne _ _ _ hlsid] using hh

theorem applyStoreOp_preserves (st : AccountState) (op : StoreOp)
    (h : fortivoiceAccountInvariant st) :
    fortivoiceAccountInvariant (applyStoreOp st op) := by
  obtain ⟨hcall, hlatest⟩ := h
  cases op with
  | track sid call now => exact track_invariant st sid call now hcall
  | queueText sid text fid now => exact ⟨hcall, hlatest⟩
  | consumeQueue sid => exact ⟨hcall, hlatest⟩
  | resolveTarget t => exact ⟨hcall, hlatest⟩
  | endSession sid => exact end_invariant st sid hcall hlatest

/-- C3: after any finite sequence of track, resolve, queue_text,
consume_queue and end operations starting from the empty account state,
the account-state invariants hold (every call-index entry points at a
live session and latest_session_id is unset or live); moreover ending a
session removes every call-index entry pointing at it, from any state
the operations can reach. -/
theorem fortivoice_store_invariants (ops : List StoreOp) :
    fortivoiceAccountInvariant (runStoreOps ops) ∧
    ∀ sid c, mapGet (endFortivoiceSession (runStoreOps ops) sid).callToSession c ≠ some sid := by
  constructor
  · have hbase : fortivoiceAccountInvariant emptyAccountState := by
      constructor
      · intro p hp
        simp [emptyAccountState] at hp
      · intro l hl
        simp [emptyAccountState] at hl
    have hall : ∀ (l : List StoreOp) (st : AccountState),
        fortivoiceAccountInvariant st →
        fortivoiceAccountInvariant (l.foldl applyStoreOp st) := by
      intro l
      induction l with
      | nil => intro st h; exact h
      | cons op rest ih =>
          intro st h
          exact ih _ (applyStoreOp_preserves st op h)
    exact hall ops _ hbase
  · intro sid c hcon
    exact mapGet_filter_value_ne _ sid c sid
      (by simpa [endFortivoiceSession] using hcon) rfl

/-- Witness for C3 at a concrete operation sequence exercising every
operation. -/
theorem fortivoice_store_invariants_witness :
    fortivoiceAccountInvariant (runStoreOps [
      StoreOp.track "s1".data
        (some { callId := some "c1".data, «from» := none, «to» := none,
                direction := none }) 0,
      StoreOp.queueText "s1".data "hi".data "u1".data 1,
      StoreOp.track "s2".data none 2,
      StoreOp.consumeQueue "s1".data,
      StoreOp.resolveTarget (some "call:c1".data),
      StoreOp.endSession "s2".data]) :=
  (fortivoice_store_invariants [
      StoreOp.track "s1".data
        (some { callId := some "c1".data, «from» := none, «to» := none,
                direction := none }) 0,
      StoreOp.queueText "s1".data "hi".data "u1".data 1,
      StoreOp.track "s2".data none 2,
      StoreOp.consumeQueue "s1".data,
      StoreOp.resolveTarget (some "call:c1".data),
      StoreOp.endSession "s2".data]).1

/-! Claim C7. -/

/-- Account state holding one live session whose id itself carries the
session: prefix. -/
def stPrefixedId : AccountState :=
  trackFortivoiceSession emptyAccountState "session:x".data none 0

/-- C7 counterexample: for the live session id session:x, the bare
target does not resolve to the id (rule 2 strips the prefix and looks up
x, which is not a session), so the prefixed and bare forms do not agree
on every live session id. -/
theorem fortivoice_resolve_prefixed_id_cex :
    mapHas stPrefixedId.sessions "session:x".data = true ∧
    resolveFortivoiceSessionId stPrefixedId (some "session:x".data) = none := by
  refine ⟨?_, ?_⟩ <;> decide

/-- C7 amended: for every live session id that is already trimmed,
non-empty, and does not (case-insensitively) start with session:, call:
or fortivoice:, resolving the target session:<id> and resolving the bare
id both return the id. -/
theorem fortivoice_resolve_target_agreement (st : AccountState) (i : Str)
    (hlive : mapHas st.sessions i = true)
    (htrim : trimL i = i)
    (hne : i ≠ [])
    (hs : startsWithL "session:".data (lowerL i) = false)
    (hc : startsWithL "call:".data (lowerL i) = false)
    (hf : startsWithL "fortivoice:".data (lowerL i) = false) :
    resolveFortivoiceSessionId st (some ("session:".data ++ i)) = some i ∧
    resolveFortivoiceSessionId st (some i) = some i := by
  have hS1 : List.dropWhile isJsWs "session:".data = "session:".data := by decide
  have hS2 : ("session:".data : Str) ≠ [] := by decide
  have htp : trimL ("session:".data ++ i) = "session:".data ++ i :=
    trimL_append_fix _ _ hS1 hS2 htrim hne
  have hlow : lowerL ("session:".data ++ i) = "session:".data ++ lowerL i := by
    unfold lowerL
    rw [List.map_append]
    rw [show List.map lowerChar "session:".data = "session:".data from by decide]
  have hfort : startsWithL "fortivoice:".data (lowerL ("session:".data ++ i)) = false := by
    rw [hlow]
    exact startsWithL_head_ne 'f' "ortivoice:".data 's' ("ession:".data ++ lowerL i)
      (by decide)
  have hsess : startsWithL "session:".data (lowerL ("session:".data ++ i)) = true := by
    rw [hlow]
    exact startsWithL_append_self _ _
  have hie : (("session:".data ++ i) : Str).isEmpty = false := rfl
  have hie2 : i.isEmpty = false := by
    cases i with
    | nil => exact absurd rfl hne
    | cons c t => rfl
  have hdrop : ("session:".data ++ i).drop "session:".data.length = i :=
    List.drop_left _ _
  have htp2 : trimL ('s' :: 'e' :: 's' :: 's' :: 'i' :: 'o' :: 'n' :: ':' :: i) =
      's' :: 'e' :: 's' :: 's' :: 'i' :: 'o' :: 'n' :: ':' :: i := htp
  have hlow2 : lowerL ('s' :: 'e' :: 's' :: 's' :: 'i' :: 'o' :: 'n' :: ':' :: i) =
      's' :: 'e' :: 's' :: 's' :: 'i' :: 'o' :: 'n' :: ':' :: lowerL i := hlow
  have hdrop2 : List.drop 8 ('s' :: 'e' :: 's' :: 's' :: 'i' :: 'o' :: 'n' :: ':' :: i) = i :=
    hdrop
  have hL1 : lowerChar 's' = 's' := by decide
  have hL2 : lowerChar 'e' = 'e' := by decide
  have hL3 : lowerChar 'i' = 'i' := by decide
  have hL4 : lowerChar 'o' = 'o' := by decide
  have hL5 : lowerChar 'n' = 'n' := by decide
  have hL6 : lowerChar ':' = ':' := by decide
  constructor
  · simp [resolveFortivoiceSessionId, normalizeFortivoiceTarget, htp2, hlow2, hdrop2,
      htrim, hie2, hlive, startsWithL_append_self, startsWithL, hs, hc, hf,
      hL1, hL2, hL3, hL4, hL5, hL6]
  · simp [resolveFortivoiceSessionId, normalizeFortivoiceTarget, htrim, hie2,
      hs, hc, hf, hlive]

/-- Account state with the live session s1. -/
def stPlainS1 : AccountState :=
  trackFortivoiceSession emptyAccountState "s1".data none 0

/-- Witness for the amended C7 at the live session s1. -/
theorem fortivoice_resolve_target_agreement_witness :
    resolveFortivoiceSessionId stPlainS1 (some ("session:".data ++ "s1".data)) =
      some "s1".data ∧
    resolveFortivoiceSessionId stPlainS1 (some "s1".data) = some "s1".data :=
  fortivoice_resolve_target_agreement stPlainS1 "s1".data (by decide) (by decide)
    (by decide) (by decide) (by decide) (by decide)

end Fortivoice
